import Mathlib

/-!
Shallow embedding of the event-stream / deduplication / upload-failover core of
the sui-cast repository (src/sui-cast/src/lib/surflux.ts and the
uploadToWalrus routine of src/sui-cast/src/App.tsx), together with proofs of
the behavioural claims about it.
-/

namespace SuiCast

/-- Substring search on character lists: does the second list occur
contiguously inside the first?  This models the JavaScript
String.prototype.includes used for namespace scoping and event
classification in surflux.ts. -/
def hasSubAux (pat : List Char) : List Char → Bool
  | [] => pat.isEmpty
  | c :: rest => pat.isPrefixOf (c :: rest) || hasSubAux pat rest

/-- Model of JavaScript s.includes(pat). -/
def strIncludes (s pat : String) : Bool :=
  hasSubAux pat.data s.data

/-- Default application package identifier, from src/lib/contracts.ts. -/
def PACKAGE_ID : String :=
  "0xbfaff760182ed4b267cbf6db6ceaa28012b2adb48a2e2db0c51023efa2f1fda7"

/-- The named payload fields that handleEvent reads from
event.data.contents.  Absent numeric fields are modelled as none. -/
structure EventContents where
  document_id : String
  uploader : String
  title : String
  walrus_blob_id : String
  category : String
  timestamp : Option Nat
  voter : String
  new_vote_count : Option Nat
deriving DecidableEq

/-- A raw stream event (SurfluxEvent in surflux.ts), with the data
envelope flattened into event_type / sender / contents. -/
structure SurfluxEvent where
  type : String
  timestamp_ms : Nat
  checkpoint_id : Nat
  tx_hash : String
  event_type : String
  sender : String
  contents : EventContents
deriving DecidableEq

/-- DocumentUploadedEvent of surflux.ts. -/
structure DocumentUploadedEvent where
  document_id : String
  uploader : String
  title : String
  walrus_blob_id : String
  category : String
  timestamp : Nat
deriving DecidableEq

/-- DocumentVotedEvent of surflux.ts. -/
structure DocumentVotedEvent where
  document_id : String
  voter : String
  new_vote_count : Nat
deriving DecidableEq

/-- The DocumentEventType string union of surflux.ts. -/
inductive DocumentEventType
  | documentUploaded
  | documentVoted
deriving DecidableEq

/-- Classified payload stored in the history buffer. -/
inductive DocumentEventData
  | uploaded (e : DocumentUploadedEvent)
  | voted (e : DocumentVotedEvent)
deriving DecidableEq

/-- ParsedDocumentEvent of surflux.ts: one entry of the recentEvents
history buffer. -/
structure ParsedDocumentEvent where
  eventType : DocumentEventType
  txHash : String
  timestamp : Nat
  data : DocumentEventData
deriving DecidableEq

/-- One invocation of a registered domain callback
(onDocumentUploaded / onDocumentVoted). -/
inductive CallbackCall
  | onDocumentUploaded (e : DocumentUploadedEvent) (txHash : String)
  | onDocumentVoted (e : DocumentVotedEvent) (txHash : String)
deriving DecidableEq

/-- Mutable state of one useDocumentEventStream reducer instance:
the history buffer (most-recent-first), the dedup set of processed
transaction hashes in insertion order (a JavaScript Set iterates in
insertion order), and the warm-up suppression flag. -/
structure ReducerState where
  recentEvents : List ParsedDocumentEvent
  processedTxHashes : List String
  isFirstConnection : Bool
deriving DecidableEq

/-- Initial reducer state: empty history, empty dedup set, warm-up flag set. -/
def initState : ReducerState :=
  { recentEvents := [], processedTxHashes := [], isFirstConnection := true }

/-- Dedup-set update of handleEvent: add the hash, then, if the set has
grown beyond 1000 entries, compact it to the 500 most recently inserted
ones (Array.from(set).slice(-500)). -/
def updateSeen (seen : List String) (h : String) : List String :=
  let s0 := seen ++ [h]
  if s0.length > 1000 then s0.drop (s0.length - 500) else s0

/-- Number(contents.timestamp || event.timestamp_ms): an absent or
falsy (zero) payload timestamp falls back to the envelope timestamp. -/
def uploadTimestamp (c : EventContents) (fallback : Nat) : Nat :=
  match c.timestamp with
  | some t => if t = 0 then fallback else t
  | none => fallback

/-- Number(contents.new_vote_count || 0): defaults to 0 when absent. -/
def votedCount (c : EventContents) : Nat :=
  match c.new_vote_count with
  | some n => n
  | none => 0

/-- handleEvent of useDocumentEventStream (surflux.ts lines 191-266).
Returns the updated reducer state and the list of domain-callback
invocations made by this call.  The warm-up flag itself is only flipped
by a timer, modelled separately as warmupElapsed. -/
def handleEvent (s : ReducerState) (e : SurfluxEvent) : ReducerState × List CallbackCall :=
  if e.type ≠ "package_event" then (s, [])
  else
    let eventType := e.event_type
    if ! strIncludes eventType PACKAGE_ID then (s, [])
    else if e.tx_hash ∈ s.processedTxHashes then (s, [])
    else
      let seen := updateSeen s.processedTxHashes e.tx_hash
      let contents := e.contents
      let isUp := strIncludes eventType "DocumentUploaded"
      let uploadEvent : DocumentUploadedEvent :=
        { document_id := contents.document_id
          uploader := contents.uploader
          title := contents.title
          walrus_blob_id := contents.walrus_blob_id
          category := contents.category
          timestamp := uploadTimestamp contents e.timestamp_ms }
      let hist1 : List ParsedDocumentEvent :=
        if isUp then
          { eventType := .documentUploaded, txHash := e.tx_hash,
            timestamp := e.timestamp_ms, data := .uploaded uploadEvent }
            :: s.recentEvents.take 49
        else s.recentEvents
      let calls1 : List CallbackCall :=
        if isUp then
          if s.isFirstConnection then []
          else [.onDocumentUploaded uploadEvent e.tx_hash]
        else []
      let isVote := strIncludes eventType "DocumentVoted"
      let voteEvent : DocumentVotedEvent :=
        { document_id := contents.document_id
          voter := contents.voter
          new_vote_count := votedCount contents }
      let hist2 : List ParsedDocumentEvent :=
        if isVote then
          { eventType := .documentVoted, txHash := e.tx_hash,
            timestamp := e.timestamp_ms, data := .voted voteEvent }
            :: hist1.take 49
        else hist1
      let calls2 : List CallbackCall :=
        calls1 ++
          (if isVote then
            if s.isFirstConnection then []
            else [.onDocumentVoted voteEvent e.tx_hash]
          else [])
      ({ recentEvents := hist2, processedTxHashes := seen,
         isFirstConnection := s.isFirstConnection }, calls2)

/-- The warm-up timer scheduled by handleEvent firing: 2 seconds after
the first processed event, isFirstConnection flips to false. -/
def warmupElapsed (s : ReducerState) : ReducerState :=
  { s with isFirstConnection := false }

/-- clearEvents of useDocumentEventStream: empties the history buffer
and the dedup set.  It does not touch isFirstConnection. -/
def clearEvents (s : ReducerState) : ReducerState :=
  { s with recentEvents := [], processedTxHashes := [] }

/-- Run handleEvent over a list of incoming stream events, left to right. -/
def runEvents (s : ReducerState) : List SurfluxEvent → ReducerState
  | [] => s
  | e :: rest => runEvents (handleEvent s e).1 rest

/-- The history entries that one handleEvent call prepends, newest
first: the DocumentVoted entry (prepended second, hence newer in the
buffer) before the DocumentUploaded one. -/
def classifiedOf (s : ReducerState) (e : SurfluxEvent) : List ParsedDocumentEvent :=
  if e.type ≠ "package_event" then []
  else if ! strIncludes e.event_type PACKAGE_ID then []
  else if e.tx_hash ∈ s.processedTxHashes then []
  else
    (if strIncludes e.event_type "DocumentVoted" then
      [{ eventType := .documentVoted, txHash := e.tx_hash,
         timestamp := e.timestamp_ms,
         data := .voted
           { document_id := e.contents.document_id
             voter := e.contents.voter
             new_vote_count := votedCount e.contents } }]
    else []) ++
    (if strIncludes e.event_type "DocumentUploaded" then
      [{ eventType := .documentUploaded, txHash := e.tx_hash,
         timestamp := e.timestamp_ms,
         data := .uploaded
           { document_id := e.contents.document_id
             uploader := e.contents.uploader
             title := e.contents.title
             walrus_blob_id := e.contents.walrus_blob_id
             category := e.contents.category
             timestamp := uploadTimestamp e.contents e.timestamp_ms } }]
    else [])

/-- All history entries produced by a run of handleEvent calls, newest
first (entries of later events precede entries of earlier events). -/
def chronicleFrom (s : ReducerState) : List SurfluxEvent → List ParsedDocumentEvent
  | [] => []
  | e :: rest => chronicleFrom (handleEvent s e).1 rest ++ classifiedOf s e

/-- ConnectionStatus of surflux.ts. -/
inductive ConnectionStatus
  | connecting
  | connected
  | disconnected
  | error
deriving DecidableEq

/-- State of one useSurfluxStream client instance.  EventSource objects
are modelled by numeric identifiers drawn from nextChannelId; ids of
channels on which close() has been called are recorded in
closedChannels.  A pending reconnect timer is modelled as
reconnectTimeout = some backoff, carrying its delay in milliseconds. -/
structure StreamState where
  status : ConnectionStatus
  eventSource : Option Nat
  nextChannelId : Nat
  closedChannels : List Nat
  reconnectTimeout : Option Nat
  reconnectAttempts : Nat
  lastError : Option String
deriving DecidableEq

/-- A stream client that has never been connected. -/
def streamInit : StreamState :=
  { status := .disconnected, eventSource := none, nextChannelId := 0,
    closedChannels := [], reconnectTimeout := none,
    reconnectAttempts := 0, lastError := none }

/-- connect of useSurfluxStream (surflux.ts lines 81-142): without a
configured API key it only sets status to disconnected; otherwise it
closes any existing channel, sets status to connecting and opens a
fresh EventSource. -/
def connect (apiKeyConfigured : Bool) (s : StreamState) : StreamState :=
  if ! apiKeyConfigured then
    { s with status := .disconnected }
  else
    let s1 :=
      match s.eventSource with
      | some ch => { s with closedChannels := ch :: s.closedChannels }
      | none => s
    { s1 with status := .connecting,
              eventSource := some s1.nextChannelId,
              nextChannelId := s1.nextChannelId + 1 }

/-- eventSource.onopen: status connected, clear last error, reset the
reconnect-attempt counter. -/
def onOpen (s : StreamState) : StreamState :=
  { s with status := .connected, lastError := none, reconnectAttempts := 0 }

/-- eventSource.onerror: status error, record the error, close and
discard the channel, schedule a reconnect after
min(1000 * 2 ^ attempts, 30000) ms and increment the attempt counter. -/
def onError (s : StreamState) : StreamState :=
  let backoff := min (1000 * 2 ^ s.reconnectAttempts) 30000
  { s with status := .error,
           lastError := some "Surflux connection failed",
           closedChannels :=
             (match s.eventSource with
              | some ch => ch :: s.closedChannels
              | none => s.closedChannels),
           eventSource := none,
           reconnectAttempts := s.reconnectAttempts + 1,
           reconnectTimeout := some backoff }

/-- disconnect of useSurfluxStream (surflux.ts lines 144-154): cancel
any pending reconnect timer, close the active channel if present, set
status to disconnected. -/
def disconnect (s : StreamState) : StreamState :=
  let s1 := { s with reconnectTimeout := none }
  let s2 :=
    match s1.eventSource with
    | some ch =>
      { s1 with closedChannels := ch :: s1.closedChannels, eventSource := none }
    | none => s1
  { s2 with status := .disconnected }

/-- Environment events that can reach the client without any further
user call: the channel opening, erroring, delivering a message, or the
pending reconnect timer firing. -/
inductive StreamAct
  | chanOpen
  | chanError
  | chanMessage
  | timerFire
deriving DecidableEq

/-- Effect of one environment event.  Channel callbacks can only fire
while a channel object is live; a reconnect timer can only fire while
it is pending (clearTimeout prevents a cancelled timer from firing).
A firing timer calls connect again when the hook is still enabled. -/
def applyAct (apiKeyConfigured enabled : Bool) : StreamAct → StreamState → StreamState
  | .chanOpen, s => if s.eventSource.isSome then onOpen s else s
  | .chanError, s => if s.eventSource.isSome then onError s else s
  | .chanMessage, s => s
  | .timerFire, s =>
    match s.reconnectTimeout with
    | some _ =>
      let s1 := { s with reconnectTimeout := none }
      if enabled then connect apiKeyConfigured s1 else s1
    | none => s

/-- Run a sequence of environment events, left to right. -/
def runActs (apiKeyConfigured enabled : Bool) : List StreamAct → StreamState → StreamState
  | [], s => s
  | a :: rest, s => runActs apiKeyConfigured enabled rest (applyAct apiKeyConfigured enabled a s)

/-- Iterated consecutive channel errors with no successful open in
between. -/
def iterErrors : Nat → StreamState → StreamState
  | 0, s => s
  | n + 1, s => iterErrors n (onError s)

/-- Blob-store mirror response body shape: the blob identifier may sit
under newlyCreated.blobObject.blobId, under alreadyCertified.blobId, or
as a bare blobId field; each is modelled as an optional string. -/
structure WalrusResponse where
  newlyCreated : Option String
  alreadyCertified : Option String
  blobId : Option String
deriving DecidableEq

/-- Outcome of the single PUT request made to one mirror: a non-ok HTTP
response with status and body text, an ok response with a parsed JSON
body, or a thrown error (network failure or JSON parse failure). -/
inductive MirrorOutcome
  | notOk (status : Nat) (body : String)
  | ok (resp : WalrusResponse)
  | throwErr (msg : String)
deriving DecidableEq

/-- JavaScript a || b on optional strings: the empty string is falsy. -/
def orFalsy : Option String → Option String → Option String
  | some s, b => if s = "" then b else some s
  | none, b => b

/-- The blob-id extraction chain of uploadToWalrus followed by the
if (!blobId) check: result.newlyCreated?.blobObject?.blobId ||
result.alreadyCertified?.blobId || result.blobId, with a falsy (absent
or empty) final value treated as no identifier. -/
def usableBlobId (r : WalrusResponse) : Option String :=
  match orFalsy (orFalsy r.newlyCreated r.alreadyCertified) r.blobId with
  | some s => if s = "" then none else some s
  | none => none

/-- Outcome of one uploadToWalrus call: the returned blob id, or the
message of the error finally thrown. -/
inductive UploadResult
  | success (blobId : String)
  | failure (message : String)
deriving DecidableEq

/-- One uploadToWalrus run, instrumented with the ordered list of
mirror endpoints actually attempted. -/
structure UploadRun where
  attempts : List String
  result : UploadResult
deriving DecidableEq

/-- The error message recorded in lastError when a mirror fails:
an HTTP status line for a non-ok response, the fixed message when an ok
response yields no usable blob id, otherwise the message of the thrown error. -/
def mirrorErrMsg : MirrorOutcome → String
  | .notOk status body => "HTTP " ++ toString status ++ ": " ++ body
  | .ok _ => "Blob ID could not be retrieved"
  | .throwErr msg => msg

/-- The usable blob identifier a mirror outcome yields, if any. -/
def mirrorBlobId : MirrorOutcome → Option String
  | .ok r => usableBlobId r
  | _ => none

/-- The for-loop of uploadToWalrus (App.tsx lines 231-281): try each
mirror in order, remember only the latest failure in lastError, return
the first usable blob id, and after exhausting the list throw lastError
(or a fixed message if no mirror was ever attempted).  The environment
is abstracted as a function from endpoint to the outcome at that mirror;
tried accumulates attempted endpoints in reverse. -/
def uploadGo (behavior : String → MirrorOutcome) :
    List String → Option String → List String → UploadRun
  | [], lastError, tried =>
    { attempts := tried.reverse,
      result := .failure (lastError.getD "Walrus upload failed") }
  | ep :: rest, _lastError, tried =>
    match behavior ep with
    | .notOk status body =>
      uploadGo behavior rest
        (some ("HTTP " ++ toString status ++ ": " ++ body)) (ep :: tried)
    | .throwErr msg =>
      uploadGo behavior rest (some msg) (ep :: tried)
    | .ok resp =>
      match usableBlobId resp with
      | some b => { attempts := (ep :: tried).reverse, result := .success b }
      | none =>
        uploadGo behavior rest
          (some "Blob ID could not be retrieved") (ep :: tried)

/-- The proxy endpoint list of uploadToWalrus. -/
def PROXY_ENDPOINTS : List String :=
  ["/walrus-api", "/walrus-api-2", "/walrus-api-3", "/walrus-api-4"]

/-- uploadToWalrus over an arbitrary configured mirror list. -/
def uploadOver (mirrors : List String) (behavior : String → MirrorOutcome) : UploadRun :=
  uploadGo behavior mirrors none []

/-- uploadToWalrus as shipped: over the four configured proxy endpoints. -/
def uploadToWalrus (behavior : String → MirrorOutcome) : UploadRun :=
  uploadOver PROXY_ENDPOINTS behavior

/-! Concrete fixtures used by witnesses, counterexamples and scenario
theorems. -/

/-- A fully qualified DocumentUploaded event-type string of this package. -/
def upEventType : String := PACKAGE_ID ++ "::document_system::DocumentUploaded"

/-- An event-type string of this package that names neither
DocumentUploaded nor DocumentVoted. -/
def otherEventType : String := PACKAGE_ID ++ "::document_system::ProfileCreated"

/-- Sample payload fields. -/
def demoContents : EventContents :=
  { document_id := "d1", uploader := "0xU", title := "Notes",
    walrus_blob_id := "b1", category := "Math", timestamp := some 111,
    voter := "", new_vote_count := none }

/-- A DocumentUploaded stream event with transaction hash tx1. -/
def eUp : SurfluxEvent :=
  { type := "package_event", timestamp_ms := 777, checkpoint_id := 1,
    tx_hash := "tx1", event_type := upEventType, sender := "0xU",
    contents := demoContents }

/-- The domain event handleEvent builds from eUp. -/
def upDemo : DocumentUploadedEvent :=
  { document_id := "d1", uploader := "0xU", title := "Notes",
    walrus_blob_id := "b1", category := "Math", timestamp := 111 }

/-- A stream event of this package that matches no classification. -/
def eOther : SurfluxEvent :=
  { type := "package_event", timestamp_ms := 778, checkpoint_id := 2,
    tx_hash := "tx2", event_type := otherEventType, sender := "0xU",
    contents := demoContents }

/-- A reducer state that has already seen tx1. -/
def sDup : ReducerState :=
  { recentEvents := [], processedTxHashes := ["tx1"], isFirstConnection := true }

/-- A reducer state whose dedup set already holds 1000 entries. -/
def sBig : ReducerState :=
  { recentEvents := [], processedTxHashes := List.replicate 1000 "a",
    isFirstConnection := true }

/-- A DocumentUploaded stream event with a transaction hash not in sBig. -/
def eBig : SurfluxEvent :=
  { type := "package_event", timestamp_ms := 9, checkpoint_id := 3,
    tx_hash := "b", event_type := upEventType, sender := "0xU",
    contents := demoContents }

/-- A stream client currently connected on channel 0. -/
def sConn : StreamState :=
  { status := .connected, eventSource := some 0, nextChannelId := 1,
    closedChannels := [], reconnectTimeout := none,
    reconnectAttempts := 0, lastError := none }

/-- Mirror environment for the A/B/C failover scenario: mirrors A and B
answer HTTP 500, mirror C returns a usable blob id. -/
def behaviorABC : String → MirrorOutcome := fun ep =>
  if ep = "C" then
    .ok { newlyCreated := some "blobC", alreadyCertified := none, blobId := none }
  else .notOk 500 "boom"

/-- Mirror environment where every mirror fails; the first one answers
HTTP 500. -/
def behaviorFailA : String → MirrorOutcome := fun ep =>
  if ep = "/walrus-api" then .notOk 500 "server exploded"
  else .notOk 503 "unavailable"

/-- Mirror environment identical to behaviorFailA except that the first
mirror fails with a thrown network error instead. -/
def behaviorFailB : String → MirrorOutcome := fun ep =>
  if ep = "/walrus-api" then .throwErr "network down"
  else .notOk 503 "unavailable"

/-! Helper lemmas about the stream client. -/

theorem iterErrors_attempts (n : Nat) (s : StreamState) :
    (iterErrors n s).reconnectAttempts = s.reconnectAttempts + n := by
  induction n generalizing s with
  | zero => rfl
  | succ n ih =>
    show (iterErrors n (onError s)).reconnectAttempts = _
    rw [ih]
    simp [onError]
    omega

theorem iterErrors_succ_outer (n : Nat) (s : StreamState) :
    iterErrors (n + 1) s = onError (iterErrors n s) := by
  induction n generalizing s with
  | zero => rfl
  | succ n ih =>
    show iterErrors (n + 1) (onError s) = _
    rw [ih]
    rfl

theorem applyAct_quiesced (cfg en : Bool) (a : StreamAct) (s : StreamState)
    (h1 : s.eventSource = none) (h2 : s.reconnectTimeout = none) :
    applyAct cfg en a s = s := by
  cases a <;> simp [applyAct, h1, h2]

theorem runActs_quiesced (cfg en : Bool) (acts : List StreamAct) (s : StreamState)
    (h1 : s.eventSource = none) (h2 : s.reconnectTimeout = none) :
    runActs cfg en acts s = s := by
  induction acts with
  | nil => rfl
  | cons a rest ih =>
    show runActs cfg en rest (applyAct cfg en a s) = s
    rw [applyAct_quiesced cfg en a s h1 h2]
    exact ih

theorem disconnect_eventSource (s : StreamState) : (disconnect s).eventSource = none := by
  cases h : s.eventSource <;> simp [disconnect, h]

theorem disconnect_timer (s : StreamState) : (disconnect s).reconnectTimeout = none := by
  cases h : s.eventSource <;> simp [disconnect, h]

theorem disconnect_status (s : StreamState) : (disconnect s).status = .disconnected := by
  cases h : s.eventSource <;> simp [disconnect, h]

theorem disconnect_idem (s : StreamState) : disconnect (disconnect s) = disconnect s := by
  cases s with
  | mk st es nid cc rt ra le => cases es <;> rfl

/-! Helper lemmas about the uploader. -/

theorem uploadGo_fail_step (behavior : String → MirrorOutcome) (ep : String)
    (rest : List String) (le : Option String) (tried : List String)
    (h : mirrorBlobId (behavior ep) = none) :
    uploadGo behavior (ep :: rest) le tried =
      uploadGo behavior rest (some (mirrorErrMsg (behavior ep))) (ep :: tried) := by
  cases hb : behavior ep with
  | notOk st body => simp [uploadGo, hb, mirrorErrMsg]
  | throwErr m => simp [uploadGo, hb, mirrorErrMsg]
  | ok r =>
    have hr : usableBlobId r = none := by simpa [mirrorBlobId, hb] using h
    simp [uploadGo, hb, hr, mirrorErrMsg]

theorem uploadGo_success_step (behavior : String → MirrorOutcome) (ep : String)
    (rest : List String) (le : Option String) (tried : List String) (b : String)
    (h : mirrorBlobId (behavior ep) = some b) :
    uploadGo behavior (ep :: rest) le tried =
      { attempts := (ep :: tried).reverse, result := .success b } := by
  cases hb : behavior ep with
  | notOk st body => simp [mirrorBlobId, hb] at h
  | throwErr m => simp [mirrorBlobId, hb] at h
  | ok r =>
    have hr : usableBlobId r = some b := by simpa [mirrorBlobId, hb] using h
    simp [uploadGo, hb, hr]

theorem uploadGo_first_success_aux (behavior : String → MirrorOutcome)
    (pre : List String) (ep : String) (rest : List String) (b : String)
    (hpre : ∀ p ∈ pre, mirrorBlobId (behavior p) = none)
    (hep : mirrorBlobId (behavior ep) = some b) :
    ∀ le tried, uploadGo behavior (pre ++ ep :: rest) le tried =
      { attempts := tried.reverse ++ (pre ++ [ep]), result := .success b } := by
  induction pre with
  | nil =>
    intro le tried
    rw [List.nil_append, uploadGo_success_step behavior ep rest le tried b hep]
    simp
  | cons p pre ih =>
    intro le tried
    have hp : mirrorBlobId (behavior p) = none := hpre p (by simp)
    rw [List.cons_append, uploadGo_fail_step behavior p _ le tried hp]
    rw [ih (fun q hq => hpre q (by simp [hq]))]
    simp

theorem uploadGo_all_fail_aux (behavior : String → MirrorOutcome)
    (pre : List String) (lastEp : String)
    (hfail : ∀ p ∈ pre ++ [lastEp], mirrorBlobId (behavior p) = none) :
    ∀ le tried, uploadGo behavior (pre ++ [lastEp]) le tried =
      { attempts := tried.reverse ++ (pre ++ [lastEp]),
        result := .failure (mirrorErrMsg (behavior lastEp)) } := by
  induction pre with
  | nil =>
    intro le tried
    have hl : mirrorBlobId (behavior lastEp) = none := hfail lastEp (by simp)
    rw [List.nil_append, uploadGo_fail_step behavior lastEp [] le tried hl]
    simp [uploadGo]
  | cons p pre ih =>
    intro le tried
    have hp : mirrorBlobId (behavior p) = none := hfail p (by simp)
    rw [List.cons_append, uploadGo_fail_step behavior p _ le tried hp]
    rw [ih (fun q hq => hfail q (by simp at hq ⊢; tauto))]
    simp

/-! Claim theorems for the stream client and the uploader. -/

/-- C2: uploadToWalrus iterates the configured mirror list in its fixed
order and returns the identifier of the first mirror that yields a
usable identifier; the attempted-endpoint trace is exactly the failing
front of the list followed by the succeeding mirror, so no later mirror
is ever requested. -/
theorem upload_first_success (behavior : String → MirrorOutcome)
    (pre : List String) (ep : String) (rest : List String) (b : String)
    (hpre : ∀ p ∈ pre, mirrorBlobId (behavior p) = none)
    (hep : mirrorBlobId (behavior ep) = some b) :
    uploadOver (pre ++ ep :: rest) behavior =
      { attempts := pre ++ [ep], result := .success b } := by
  unfold uploadOver
  rw [uploadGo_first_success_aux behavior pre ep rest b hpre hep]
  simp

/-- Witness for C2: with mirrors [A, B, C] where A and B answer HTTP 500
and C yields blobC, upload returns blobC and attempts exactly the three
mirrors A, B, C in order. -/
theorem upload_first_success_w :
    uploadOver (["A", "B"] ++ "C" :: []) behaviorABC =
      { attempts := ["A", "B"] ++ ["C"], result := .success "blobC" } ∧
    (["A", "B"] ++ ["C"]).length = 3 :=
  ⟨upload_first_success behaviorABC ["A", "B"] "C" [] "blobC"
      (by decide) (by decide),
   by decide⟩

/-- C5 fails on the code: the aggregated failure of uploadToWalrus keeps
only the error of the last mirror.  Two mirror environments that differ in
how the first mirror fails (HTTP 500 body versus a thrown network
error) produce identical upload results, so the failure result cannot
contain an (endpoint, errorMessage) pair for each attempted mirror. -/
theorem upload_failure_counterexample :
    uploadToWalrus behaviorFailA = uploadToWalrus behaviorFailB ∧
    behaviorFailA "/walrus-api" ≠ behaviorFailB "/walrus-api" ∧
    mirrorErrMsg (behaviorFailA "/walrus-api") ≠
      mirrorErrMsg (behaviorFailB "/walrus-api") := by
  decide

/-- C5 amended: when every mirror fails, uploadToWalrus attempts all
mirrors in order and throws a failure carrying only the error message
derived from the last attempted mirror; failures of earlier mirrors are
not retained in the result. -/
theorem upload_all_fail_last_error (behavior : String → MirrorOutcome)
    (pre : List String) (lastEp : String)
    (hfail : ∀ p ∈ pre ++ [lastEp], mirrorBlobId (behavior p) = none) :
    uploadOver (pre ++ [lastEp]) behavior =
      { attempts := pre ++ [lastEp],
        result := .failure (mirrorErrMsg (behavior lastEp)) } := by
  unfold uploadOver
  rw [uploadGo_all_fail_aux behavior pre lastEp hfail]
  simp

/-- Witness for the amended C5: with all four configured endpoints
failing, the result is the HTTP 503 message of the last endpoint. -/
theorem upload_all_fail_last_error_w :
    uploadOver (["/walrus-api", "/walrus-api-2", "/walrus-api-3"] ++ ["/walrus-api-4"])
        behaviorFailA =
      { attempts := ["/walrus-api", "/walrus-api-2", "/walrus-api-3"] ++ ["/walrus-api-4"],
        result := .failure (mirrorErrMsg (behaviorFailA "/walrus-api-4")) } :=
  upload_all_fail_last_error behaviorFailA
    ["/walrus-api", "/walrus-api-2", "/walrus-api-3"] "/walrus-api-4" (by decide)

/-- C3: starting from a reset attempt counter, the delay carried by the
reconnect timer scheduled at the (n+1)-th consecutive channel error
(no successful open in between) is min(1000 * 2 ^ n, 30000)
milliseconds, so consecutive failures back off 1000, 2000, 4000, ...
plateauing at 30000. -/
theorem reconnect_backoff_delay (n : Nat) (s : StreamState)
    (h : s.reconnectAttempts = 0) :
    (iterErrors (n + 1) s).reconnectTimeout = some (min (1000 * 2 ^ n) 30000) := by
  rw [iterErrors_succ_outer]
  simp [onError, iterErrors_attempts, h]

/-- Witness for C3: six consecutive errors from a fresh client schedule
the plateau delay min(1000 * 2 ^ 5, 30000) = 30000 ms. -/
theorem reconnect_backoff_delay_w :
    streamInit.reconnectAttempts = 0 ∧
    (iterErrors 6 streamInit).reconnectTimeout = some (min (1000 * 2 ^ 5) 30000) :=
  ⟨rfl, reconnect_backoff_delay 5 streamInit rfl⟩

/-- C4 fails on the code: connect() called on a client that is already
connected on a live channel is not a no-op.  On the concrete connected
state sConn (live channel 0), connect closes channel 0 and installs a
fresh channel, changing the state. -/
theorem connect_not_noop :
    sConn.status = .connected ∧
    connect true sConn ≠ sConn ∧
    (connect true sConn).eventSource ≠ sConn.eventSource ∧
    0 ∈ (connect true sConn).closedChannels := by
  decide

/-- C4 amended: calling connect() with a configured API key while a
channel is live is not a no-op: it closes the existing channel,
records status connecting, and opens a fresh channel (connect returns
without touching the channel only when no API key is configured). -/
theorem connect_reopens (s : StreamState) (ch : Nat)
    (h : s.eventSource = some ch) :
    (connect true s).eventSource = some s.nextChannelId ∧
    (connect true s).nextChannelId = s.nextChannelId + 1 ∧
    ch ∈ (connect true s).closedChannels ∧
    (connect true s).status = .connecting := by
  simp [connect, h]

/-- Witness for the amended C4 at the connected state sConn. -/
theorem connect_reopens_w :
    (connect true sConn).eventSource = some sConn.nextChannelId ∧
    (connect true sConn).nextChannelId = sConn.nextChannelId + 1 ∧
    0 ∈ (connect true sConn).closedChannels ∧
    (connect true sConn).status = .connecting :=
  connect_reopens sConn 0 rfl

/-- C6: disconnect cancels any pending reconnect timer, closes the
active channel, and sets status to disconnected; it is idempotent; and
after disconnect, no environment events (channel callbacks, message
delivery, or a timer firing) can change the state — in particular the
callback of the cancelled reconnect timer never fires, so no post-disconnect
reconnection occurs. -/
theorem disconnect_cancels_reconnect (cfg en : Bool) (acts : List StreamAct)
    (s : StreamState) :
    (disconnect s).reconnectTimeout = none ∧
    (disconnect s).eventSource = none ∧
    (disconnect s).status = .disconnected ∧
    disconnect (disconnect s) = disconnect s ∧
    runActs cfg en acts (disconnect s) = disconnect s :=
  ⟨disconnect_timer s, disconnect_eventSource s, disconnect_status s,
   disconnect_idem s,
   runActs_quiesced cfg en acts (disconnect s)
     (disconnect_eventSource s) (disconnect_timer s)⟩

/-! Helper lemmas about the reducer. -/

theorem handle_mem_noop (s : ReducerState) (e : SurfluxEvent)
    (h : e.tx_hash ∈ s.processedTxHashes) :
    handleEvent s e = (s, []) := by
  simp only [handleEvent]
  split_ifs with h1 h2 <;> rfl

theorem handle_fresh_seen (s : ReducerState) (e : SurfluxEvent)
    (h1 : e.type = "package_event")
    (h2 : strIncludes e.event_type PACKAGE_ID = true)
    (h3 : e.tx_hash ∉ s.processedTxHashes) :
    (handleEvent s e).1.processedTxHashes = updateSeen s.processedTxHashes e.tx_hash := by
  unfold handleEvent
  simp [h1, h2, h3]

theorem mem_updateSeen (seen : List String) (a : String) : a ∈ updateSeen seen a := by
  simp only [updateSeen]
  split_ifs with hlen
  · rw [List.drop_append_eq_append_drop]
    have h0 : (seen ++ [a]).length - 500 - seen.length = 0 := by
      simp only [List.length_append, List.length_singleton]
      omega
    rw [h0]
    simp
  · simp

theorem take_append_take {α : Type _} (a b : List α) (n : Nat) :
    (a ++ b.take n).take n = (a ++ b).take n := by
  rw [List.take_append_eq_append_take, List.take_append_eq_append_take, List.take_take]
  have h : (n - a.length) ⊓ n = n - a.length := by omega
  rw [h]

theorem handle_recentEvents (s : ReducerState) (e : SurfluxEvent)
    (hlen : s.recentEvents.length ≤ 50) :
    (handleEvent s e).1.recentEvents = (classifiedOf s e ++ s.recentEvents).take 50 := by
  by_cases h1 : e.type = "package_event"
  · by_cases h2 : strIncludes e.event_type PACKAGE_ID
    · by_cases h3 : e.tx_hash ∈ s.processedTxHashes
      · unfold handleEvent classifiedOf
        simp [h1, h2, h3, List.take_of_length_le hlen]
      · by_cases hu : strIncludes e.event_type "DocumentUploaded" <;>
          by_cases hv : strIncludes e.event_type "DocumentVoted" <;>
          · unfold handleEvent classifiedOf
            simp [h1, h2, h3, hu, hv, List.take_take, List.take_of_length_le hlen]
    · unfold handleEvent classifiedOf
      simp [h1, h2, List.take_of_length_le hlen]
  · unfold handleEvent classifiedOf
    simp [h1, List.take_of_length_le hlen]

theorem handle_recentEvents_length (s : ReducerState) (e : SurfluxEvent)
    (hlen : s.recentEvents.length ≤ 50) :
    (handleEvent s e).1.recentEvents.length ≤ 50 := by
  rw [handle_recentEvents s e hlen]
  exact List.length_take_le 50 _

theorem runEvents_recentEvents (es : List SurfluxEvent) (s : ReducerState)
    (hlen : s.recentEvents.length ≤ 50) :
    (runEvents s es).recentEvents = (chronicleFrom s es ++ s.recentEvents).take 50 := by
  induction es generalizing s with
  | nil =>
    simp [runEvents, chronicleFrom, List.take_of_length_le hlen]
  | cons e rest ih =>
    show (runEvents (handleEvent s e).1 rest).recentEvents = _
    rw [ih (handleEvent s e).1 (handle_recentEvents_length s e hlen),
        handle_recentEvents s e hlen, take_append_take, ← List.append_assoc]
    rfl

/-! Claim theorems for the reducer. -/

/-- C1: a StreamEvent whose transaction hash is already in the dedup set
is discarded by handleEvent: no domain callback is invoked, and the
reducer state — in particular the visible history buffer — is unchanged. -/
theorem handle_duplicate_noop (s : ReducerState) (e : SurfluxEvent)
    (h : e.tx_hash ∈ s.processedTxHashes) :
    handleEvent s e = (s, []) :=
  handle_mem_noop s e h

/-- Witness for C1: replaying tx1 against a state that has seen tx1
leaves the state unchanged and fires no callback. -/
theorem handle_duplicate_noop_w : handleEvent sDup eUp = (sDup, []) :=
  handle_duplicate_noop sDup eUp (by decide)

/-- C7: after any sequence of handle calls from the initial state, the
history buffer is exactly the 50 most recent classified domain events
in most-recent-first order (chronicleFrom lists all classified events
newest first), and in particular never holds more than 50 entries. -/
theorem history_bounded_recent_first (es : List SurfluxEvent) :
    (runEvents initState es).recentEvents = (chronicleFrom initState es).take 50 ∧
    (runEvents initState es).recentEvents.length ≤ 50 := by
  have h := runEvents_recentEvents es initState (by simp [initState])
  rw [show initState.recentEvents = [] from rfl, List.append_nil] at h
  exact ⟨h, h ▸ List.length_take_le 50 _⟩

/-- C8: when inserting a fresh transaction hash makes the dedup set
exceed 1000 entries, handleEvent immediately compacts it to exactly the
500 most recently inserted hashes (the tail of the post-insertion
sequence); afterwards its size is 500, hence at most 1000, and every
one of those 500 most recent hashes is still seen. -/
theorem seen_compaction (s : ReducerState) (e : SurfluxEvent)
    (h1 : e.type = "package_event")
    (h2 : strIncludes e.event_type PACKAGE_ID = true)
    (h3 : e.tx_hash ∉ s.processedTxHashes)
    (h4 : 1000 ≤ s.processedTxHashes.length) :
    (handleEvent s e).1.processedTxHashes =
      (s.processedTxHashes ++ [e.tx_hash]).drop (s.processedTxHashes.length + 1 - 500) ∧
    (handleEvent s e).1.processedTxHashes.length = 500 ∧
    (handleEvent s e).1.processedTxHashes.length ≤ 1000 ∧
    ∀ a ∈ (s.processedTxHashes ++ [e.tx_hash]).drop (s.processedTxHashes.length + 1 - 500),
      a ∈ (handleEvent s e).1.processedTxHashes := by
  have hseen := handle_fresh_seen s e h1 h2 h3
  have hupd : updateSeen s.processedTxHashes e.tx_hash =
      (s.processedTxHashes ++ [e.tx_hash]).drop (s.processedTxHashes.length + 1 - 500) := by
    simp only [updateSeen]
    rw [if_pos]
    · simp only [List.length_append, List.length_singleton]
    · simp only [List.length_append, List.length_singleton]
      omega
  have heq : (handleEvent s e).1.processedTxHashes =
      (s.processedTxHashes ++ [e.tx_hash]).drop (s.processedTxHashes.length + 1 - 500) :=
    hseen.trans hupd
  have hl : (handleEvent s e).1.processedTxHashes.length = 500 := by
    rw [heq, List.length_drop]
    simp only [List.length_append, List.length_singleton]
    omega
  exact ⟨heq, hl, by omega, fun a ha => heq ▸ ha⟩

/-- Witness for C8 at a state holding 1000 hashes: inserting a fresh
hash compacts the set to the 500 most recently inserted entries. -/
theorem seen_compaction_w :
    (handleEvent sBig eBig).1.processedTxHashes =
      (sBig.processedTxHashes ++ [eBig.tx_hash]).drop
        (sBig.processedTxHashes.length + 1 - 500) ∧
    (handleEvent sBig eBig).1.processedTxHashes.length = 500 ∧
    (handleEvent sBig eBig).1.processedTxHashes.length ≤ 1000 ∧
    ∀ a ∈ (sBig.processedTxHashes ++ [eBig.tx_hash]).drop
        (sBig.processedTxHashes.length + 1 - 500),
      a ∈ (handleEvent sBig eBig).1.processedTxHashes :=
  seen_compaction sBig eBig rfl (by decide)
    (by
      rw [show eBig.tx_hash = "b" from rfl,
          show sBig.processedTxHashes = List.replicate 1000 "a" from rfl,
          List.mem_replicate]
      decide)
    (by
      rw [show sBig.processedTxHashes = List.replicate 1000 "a" from rfl,
          List.length_replicate])

/-- C9: a stream event of this package whose type string names neither
DocumentUploaded nor DocumentVoted still gets its transaction hash
inserted into the dedup set, while producing no callback and no history
entry; a later event reusing that transaction hash is then discarded
outright — the reducer state stays unchanged and no callback fires. -/
theorem unclassified_still_dedups (s : ReducerState) (e e2 : SurfluxEvent)
    (h1 : e.type = "package_event")
    (h2 : strIncludes e.event_type PACKAGE_ID = true)
    (hu : strIncludes e.event_type "DocumentUploaded" = false)
    (hv : strIncludes e.event_type "DocumentVoted" = false)
    (h3 : e.tx_hash ∉ s.processedTxHashes)
    (h4 : e2.tx_hash = e.tx_hash) :
    e.tx_hash ∈ (handleEvent s e).1.processedTxHashes ∧
    (handleEvent s e).2 = [] ∧
    (handleEvent s e).1.recentEvents = s.recentEvents ∧
    handleEvent (handleEvent s e).1 e2 = ((handleEvent s e).1, []) := by
  have hmem : e.tx_hash ∈ (handleEvent s e).1.processedTxHashes := by
    rw [handle_fresh_seen s e h1 h2 h3]
    exact mem_updateSeen _ _
  refine ⟨hmem, ?_, ?_, handle_mem_noop _ e2 (h4 ▸ hmem)⟩
  · simp only [handleEvent]
    simp [h1, h2, h3, hu, hv]
  · simp only [handleEvent]
    simp [h1, h2, h3, hu, hv]

/-- Witness for C9: an unclassified package event with hash tx2 marks
tx2 seen without any callback or history entry, and a replay of the
same event is then a no-op. -/
theorem unclassified_still_dedups_w :
    "tx2" ∈ (handleEvent initState eOther).1.processedTxHashes ∧
    (handleEvent initState eOther).2 = [] ∧
    (handleEvent initState eOther).1.recentEvents = initState.recentEvents ∧
    handleEvent (handleEvent initState eOther).1 eOther =
      ((handleEvent initState eOther).1, []) :=
  unclassified_still_dedups initState eOther eOther rfl (by decide) (by decide)
    (by decide) (by decide) rfl

/-- C10: clearEvents empties the history buffer and the dedup set but
leaves the warm-up flag untouched; consequently an event whose hash had
already been surfaced to a callback, replayed after clearEvents, is
processed again and fires a second callback for the same transaction
hash (whereas without the clear the replay fires none). -/
theorem clear_keeps_warmup_allows_replay :
    (∀ s : ReducerState, clearEvents s =
      { recentEvents := [], processedTxHashes := [],
        isFirstConnection := s.isFirstConnection }) ∧
    (handleEvent (warmupElapsed initState) eUp).2 =
      [.onDocumentUploaded upDemo "tx1"] ∧
    (handleEvent (handleEvent (warmupElapsed initState) eUp).1 eUp).2 = [] ∧
    (handleEvent (clearEvents (handleEvent (warmupElapsed initState) eUp).1) eUp).2 =
      [.onDocumentUploaded upDemo "tx1"] := by
  refine ⟨fun s => rfl, by decide, by decide, by decide⟩

end SuiCast
